import Mathlib

/-!
Verification of the update-scheduling core of the `Sensor` base class
(`include/ignition/sensors/Sensor.hh`).  The repository ships only the
header, so the bodies of the member functions are modelled from the
specification's algorithm (spec §3, §4.1); the header's declarations,
doc comments and constants (`NO_SENSOR`, the `force` remark on
`Update`) constrain the model directly.

Simulation time (`ignition::common::Time`) is an opaque timestamp type
supporting addition and ordering; it is embedded as `ℚ`.  Update rates
(`double`, Hz) are likewise embedded as `ℚ`; the pose is a plain record
of six rational coordinates, opaque to the scheduler.
-/

/-- From the source (`Sensor.hh` line 33-34):
`using SensorId = std::size_t; const SensorId NO_SENSOR = 0;`. -/
def NO_SENSOR : Nat := 0

/-- Placeholder for `ignition::math::Pose3d`: a 6-DOF transform, pure
data with no scheduling interaction. -/
structure Pose3 where
  x : ℚ
  y : ℚ
  z : ℚ
  roll : ℚ
  pitch : ℚ
  yaw : ℚ
deriving DecidableEq, Repr

/-- The identity pose (default when the configuration omits a pose). -/
def Pose3.identity : Pose3 := ⟨0, 0, 0, 0, 0, 0⟩

/-- Modelled from the spec: the state held behind `Sensor::dataPtr`
(class `SensorPrivate` is forward-declared in the header but its
definition is not in the repository).  Fields follow spec §3's data
model: id, name, topic, pose, updateRate, lastUpdateTime,
nextUpdateTime, manager back-reference. -/
structure Sensor where
  id : Nat
  name : String
  topic : String
  pose : Pose3
  updateRate : ℚ
  lastUpdateTime : ℚ
  nextUpdateTime : ℚ
  manager : Option Nat
deriving DecidableEq, Repr

/-- Modelled from the spec: the state of a freshly constructed sensor
(`Sensor::Sensor()`, whose body is not in the repository): unattached
(`id = NO_SENSOR`, no manager), unconfigured (empty name/topic,
identity pose), unthrottled rate 0, times at the zero epoch. -/
def sensorCtor : Sensor :=
  { id := NO_SENSOR, name := "", topic := "", pose := Pose3.identity,
    updateRate := 0, lastUpdateTime := 0, nextUpdateTime := 0,
    manager := none }

/-- Modelled from the spec (§3): `updatePeriod` is the derived value
`1/updateRate` when the rate is positive, else no minimum period
(unthrottled), embedded as 0. -/
def Sensor.updatePeriod (s : Sensor) : ℚ :=
  if 0 < s.updateRate then 1 / s.updateRate else 0

/-- Modelled from the spec (§4.1): the gating operation
`Sensor::Update(const common::Time &_now, const bool _force)`, whose
body is not in the repository.  The subclass data-generation hook
`Update(_now)` is abstract; its boolean result is supplied as the
parameter `ok`.  Returns the new state and whether the hook was
invoked.  Algorithm: invoke the hook iff `force` or `now ≥
nextUpdateTime`; on success set `lastUpdateTime := now` and, on the
regular (non-forced) path only, recompute `nextUpdateTime :=
lastUpdateTime + updatePeriod`; on failure, or when not due, change
nothing. -/
def Sensor.Update (s : Sensor) (now : ℚ) (force ok : Bool) :
    Sensor × Bool :=
  if force = true ∨ s.nextUpdateTime ≤ now then
    if ok then
      if force then ({ s with lastUpdateTime := now }, true)
      else ({ s with lastUpdateTime := now,
                     nextUpdateTime := now + s.updatePeriod }, true)
    else (s, true)
  else (s, false)

/-- Modelled from the spec (§4.1): `Sensor::Init(Manager *, SensorId)`,
whose body is not in the repository.  Records the manager
back-reference and the id; precondition (spec §3, §7): called at most
once per instance with a valid (non-`NO_SENSOR`) id, a second call is
rejected.  Returns the new state and whether initialization was
accepted. -/
def Sensor.Init (s : Sensor) (mgr : Nat) (i : Nat) : Sensor × Bool :=
  if s.id = NO_SENSOR ∧ i ≠ NO_SENSOR then
    ({ s with id := i, manager := some mgr }, true)
  else (s, false)

/-- Modelled from the spec (§6): the configuration fields the core
reads from the opaque `<sensor>` element: name, topic, update rate,
pose, each possibly absent. -/
structure SensorConfig where
  name : Option String
  topic : Option String
  updateRate : Option ℚ
  pose : Option Pose3
deriving DecidableEq, Repr

/-- Modelled from the spec (§4.1, §7, §8): `Sensor::Load(sdf::ElementPtr)`,
whose body is not in the repository.  Succeeds iff name and topic are
present and non-empty and the configured rate (defaulting to
unthrottled 0 when absent, spec §8) is non-negative; negative rates
are refused (spec §7).  On failure the state is unchanged. -/
def Sensor.Load (s : Sensor) (c : SensorConfig) : Sensor × Bool :=
  match c.name, c.topic with
  | some n, some t =>
    if n = "" ∨ t = "" then (s, false)
    else
      if 0 ≤ c.updateRate.getD 0 then
        ({ s with name := n, topic := t, updateRate := c.updateRate.getD 0,
                  pose := c.pose.getD Pose3.identity }, true)
      else (s, false)
  | _, _ => (s, false)

/-- Modelled from the spec (§4.1, §7): `Sensor::SetUpdateRate(double)`,
whose body is not in the repository.  A negative rate is refused (the
stored rate is unchanged); a non-negative rate is stored.  The
schedule (`nextUpdateTime`) is not retroactively changed. -/
def Sensor.SetUpdateRate (s : Sensor) (hz : ℚ) : Sensor :=
  if 0 ≤ hz then { s with updateRate := hz } else s

/-- Modelled from the spec (§4.1): `Sensor::SetPose`, whose body is not
in the repository: pure data, no scheduling interaction. -/
def Sensor.SetPose (s : Sensor) (p : Pose3) : Sensor :=
  { s with pose := p }

/-- Modelled from the spec: the const accessor
`Sensor::NextUpdateTime()`, whose body is not in the repository;
returns the stored value and the (unchanged) receiver state. -/
def Sensor.NextUpdateTime (s : Sensor) : ℚ × Sensor :=
  (s.nextUpdateTime, s)

/-- Modelled from the spec: the const accessor `Sensor::UpdateRate()`;
returns the stored value and the (unchanged) receiver state. -/
def Sensor.UpdateRate (s : Sensor) : ℚ × Sensor :=
  (s.updateRate, s)

/-- Modelled from the spec: the const accessor `Sensor::Pose()`;
returns the stored value and the (unchanged) receiver state. -/
def Sensor.PoseGet (s : Sensor) : Pose3 × Sensor :=
  (s.pose, s)

/-- Modelled from the spec: the const accessor `Sensor::Name()`;
returns the stored value and the (unchanged) receiver state. -/
def Sensor.NameGet (s : Sensor) : String × Sensor :=
  (s.name, s)

/-- Modelled from the spec: the const accessor `Sensor::Topic()`;
returns the stored value and the (unchanged) receiver state. -/
def Sensor.TopicGet (s : Sensor) : String × Sensor :=
  (s.topic, s)

/-- Modelled from the spec: the const accessor `Sensor::Id()`;
returns the stored value and the (unchanged) receiver state. -/
def Sensor.IdGet (s : Sensor) : Nat × Sensor :=
  (s.id, s)

/-- Modelled from the spec: the const accessor `Sensor::Manager()`;
returns the stored value and the (unchanged) receiver state. -/
def Sensor.ManagerGet (s : Sensor) : Option Nat × Sensor :=
  (s.manager, s)

/-- States reachable from construction by the core's operations when
every `Update` call is non-forced (`force = false`). -/
inductive ReachableNF : Sensor → Prop where
  | ctor : ReachableNF sensorCtor
  | load (s : Sensor) (c : SensorConfig) :
      ReachableNF s → ReachableNF (Sensor.Load s c).1
  | initOp (s : Sensor) (mgr i : Nat) :
      ReachableNF s → ReachableNF (Sensor.Init s mgr i).1
  | update (s : Sensor) (now : ℚ) (ok : Bool) :
      ReachableNF s → ReachableNF (Sensor.Update s now false ok).1
  | setRate (s : Sensor) (hz : ℚ) :
      ReachableNF s → ReachableNF (Sensor.SetUpdateRate s hz)
  | setPose (s : Sensor) (p : Pose3) :
      ReachableNF s → ReachableNF (Sensor.SetPose s p)

/-- States of a sensor that has never been successfully initialized:
reachable from construction by `Load`, `Update` (forced or not, any
hook result), `SetUpdateRate`, `SetPose`, and rejected `Init` calls
(those reporting failure). -/
inductive ReachableNoInit : Sensor → Prop where
  | ctor : ReachableNoInit sensorCtor
  | load (s : Sensor) (c : SensorConfig) :
      ReachableNoInit s → ReachableNoInit (Sensor.Load s c).1
  | initFail (s : Sensor) (mgr i : Nat) :
      ReachableNoInit s → (Sensor.Init s mgr i).2 = false →
      ReachableNoInit (Sensor.Init s mgr i).1
  | update (s : Sensor) (now : ℚ) (force ok : Bool) :
      ReachableNoInit s → ReachableNoInit (Sensor.Update s now force ok).1
  | setRate (s : Sensor) (hz : ℚ) :
      ReachableNoInit s → ReachableNoInit (Sensor.SetUpdateRate s hz)
  | setPose (s : Sensor) (p : Pose3) :
      ReachableNoInit s → ReachableNoInit (Sensor.SetPose s p)

/-- Helper: the hook is invoked by `Update(now, force)` exactly when
`force` holds or the sensor is due (`now ≥ nextUpdateTime`). -/
theorem Sensor.update_invoked_iff (s : Sensor) (now : ℚ)
    (force ok : Bool) :
    (Sensor.Update s now force ok).2 = true ↔
      (force = true ∨ s.nextUpdateTime ≤ now) := by
  unfold Sensor.Update
  by_cases h : force = true ∨ s.nextUpdateTime ≤ now
  · cases ok <;> cases force <;> simp_all
  · simp [h]

/-- Helper: when the hook is not invoked, the state is unchanged. -/
theorem Sensor.update_not_invoked_eq (s : Sensor) (now : ℚ)
    (force ok : Bool)
    (h : (Sensor.Update s now force ok).2 = false) :
    (Sensor.Update s now force ok).1 = s := by
  unfold Sensor.Update at h ⊢
  by_cases hc : force = true ∨ s.nextUpdateTime ≤ now
  · cases ok <;> cases force <;> simp_all
  · simp [hc]

/-- Claim C1: a non-forced call `Update(now, false)` invokes the
data-generation hook iff `now ≥ nextUpdateTime` at the moment of the
call, and when the hook is not invoked the sensor state is unchanged. -/
theorem C1_regular_gate (s : Sensor) (now : ℚ) (ok : Bool) :
    ((Sensor.Update s now false ok).2 = true ↔ s.nextUpdateTime ≤ now) ∧
    ((Sensor.Update s now false ok).2 = false →
      (Sensor.Update s now false ok).1 = s) := by
  constructor
  · rw [Sensor.update_invoked_iff]
    simp
  · exact Sensor.update_not_invoked_eq s now false ok

/-- Witness for C1 at a concrete input: the fresh sensor at time 1 is
due, so the hook is invoked. -/
theorem C1_regular_gate_witness :
    ((Sensor.Update sensorCtor 1 false true).2 = true ↔
      sensorCtor.nextUpdateTime ≤ 1) ∧
    ((Sensor.Update sensorCtor 1 false true).2 = false →
      (Sensor.Update sensorCtor 1 false true).1 = sensorCtor) :=
  C1_regular_gate sensorCtor 1 true

/-- Claim C2: a forced update `Update(now, true)` never changes
`nextUpdateTime`, whatever the state, the time and the hook's result
(header remark line 89: if forced, `NextUpdateTime()` is unchanged). -/
theorem C2_force_preserves_next (s : Sensor) (now : ℚ) (ok : Bool) :
    ((Sensor.Update s now true ok).1.NextUpdateTime).1 =
      (s.NextUpdateTime).1 := by
  unfold Sensor.Update Sensor.NextUpdateTime
  cases ok <;> simp

/-- Witness for C2 at a concrete input (C2 has only data binders; the
application is recorded for completeness). -/
theorem C2_force_preserves_next_witness :
    ((Sensor.Update sensorCtor 5 true true).1.NextUpdateTime).1 =
      (sensorCtor.NextUpdateTime).1 :=
  C2_force_preserves_next sensorCtor 5 true

/-- Claim C3: with rate `r > 0`, after a regular (non-forced) call at
time `t` in which the hook is invoked and succeeds, `lastUpdateTime`
equals `t` and `NextUpdateTime()` equals `t + 1/r`. -/
theorem C3_regular_success_schedule (s : Sensor) (t : ℚ)
    (hr : 0 < s.updateRate)
    (hinv : (Sensor.Update s t false true).2 = true) :
    (Sensor.Update s t false true).1.lastUpdateTime = t ∧
    ((Sensor.Update s t false true).1.NextUpdateTime).1 =
      t + 1 / s.updateRate := by
  have hdue : s.nextUpdateTime ≤ t := by
    rcases (Sensor.update_invoked_iff s t false true).mp hinv with h | h
    · exact absurd h (by simp)
    · exact h
  unfold Sensor.Update Sensor.NextUpdateTime Sensor.updatePeriod
  simp [hdue, hr]

/-- Witness for C3: a sensor with rate 10 due at time 0, updated at
time 1/10, ends with `lastUpdateTime = 1/10` and next due time
`1/10 + 1/10`. -/
theorem C3_regular_success_schedule_witness :
    (0 : ℚ) < (Sensor.SetUpdateRate sensorCtor 10).updateRate ∧
    (Sensor.Update (Sensor.SetUpdateRate sensorCtor 10)
        (1/10) false true).2 = true ∧
    (Sensor.Update (Sensor.SetUpdateRate sensorCtor 10)
        (1/10) false true).1.lastUpdateTime = 1/10 ∧
    ((Sensor.Update (Sensor.SetUpdateRate sensorCtor 10)
        (1/10) false true).1.NextUpdateTime).1 =
      1/10 + 1 / (Sensor.SetUpdateRate sensorCtor 10).updateRate := by
  refine ⟨by norm_num [Sensor.SetUpdateRate, sensorCtor], ?_, ?_⟩
  · norm_num [Sensor.Update, Sensor.SetUpdateRate, sensorCtor]
  · exact C3_regular_success_schedule (Sensor.SetUpdateRate sensorCtor 10)
      (1/10)
      (by norm_num [Sensor.SetUpdateRate, sensorCtor])
      (by norm_num [Sensor.Update, Sensor.SetUpdateRate, sensorCtor])

/-- A reachable state with rate 0 but a pending future due time: load
rate 10, perform a regular successful update at time 0 (the next due
time becomes 1/10), then set the rate to 0.  `SetUpdateRate` does not
retroactively change `nextUpdateTime` (spec §4.1). -/
def rateZeroPending : Sensor :=
  Sensor.SetUpdateRate
    (Sensor.Update (Sensor.SetUpdateRate sensorCtor 10) 0 false true).1 0

/-- Counterexample to claim C4 as stated: `rateZeroPending` is
reachable (without forced updates and with non-decreasing times), has
update rate 0, yet `Update(1/20, false)` does not invoke the hook,
because `nextUpdateTime = 1/10 > 1/20`. -/
theorem C4_unthrottled_counterexample :
    ReachableNF rateZeroPending ∧
    rateZeroPending.updateRate = 0 ∧
    (Sensor.Update rateZeroPending (1/20) false true).2 = false := by
  refine ⟨?_, ?_, ?_⟩
  · exact ReachableNF.setRate _ 0
      (ReachableNF.update _ 0 true (ReachableNF.setRate _ 10 ReachableNF.ctor))
  · norm_num [rateZeroPending, Sensor.SetUpdateRate, Sensor.Update,
      Sensor.updatePeriod, sensorCtor]
  · norm_num [rateZeroPending, Sensor.SetUpdateRate, Sensor.Update,
      Sensor.updatePeriod, sensorCtor]

/-- Claim C4, amended: for a sensor with update rate 0 whose due time
has arrived (`nextUpdateTime ≤ now`), `Update(now, false)` invokes the
hook, and afterwards `nextUpdateTime ≤ now` still holds (the period is
0), so every later call is again eligible regardless of its time. -/
theorem C4_unthrottled_amended (s : Sensor) (now : ℚ) (ok : Bool)
    (h0 : s.updateRate = 0) (hdue : s.nextUpdateTime ≤ now) :
    (Sensor.Update s now false ok).2 = true ∧
    (Sensor.Update s now false ok).1.nextUpdateTime ≤ now := by
  unfold Sensor.Update Sensor.updatePeriod
  cases ok <;> simp [hdue, h0]

/-- Witness for the amended C4: the freshly constructed sensor
(rate 0, due time 0) at time 5. -/
theorem C4_unthrottled_amended_witness :
    (Sensor.Update sensorCtor 5 false true).2 = true ∧
    (Sensor.Update sensorCtor 5 false true).1.nextUpdateTime ≤ 5 :=
  C4_unthrottled_amended sensorCtor 5 true (by norm_num [sensorCtor])
    (by norm_num [sensorCtor])

/-- Claim C5: if a non-forced `Update(now, false)` invokes the hook
and the hook fails, the state (in particular `lastUpdateTime` and
`nextUpdateTime`) is unchanged, and any later call at time
`now' ≥ now` still invokes the hook. -/
theorem C5_failed_hook_retry (s : Sensor) (now now' : ℚ) (ok' : Bool)
    (hinv : (Sensor.Update s now false false).2 = true)
    (hle : now ≤ now') :
    (Sensor.Update s now false false).1 = s ∧
    (Sensor.Update (Sensor.Update s now false false).1
        now' false ok').2 = true := by
  have hdue : s.nextUpdateTime ≤ now := by
    rcases (Sensor.update_invoked_iff s now false false).mp hinv with h | h
    · exact absurd h (by simp)
    · exact h
  have hst : (Sensor.Update s now false false).1 = s := by
    unfold Sensor.Update
    simp [hdue]
  refine ⟨hst, ?_⟩
  rw [hst, Sensor.update_invoked_iff]
  exact Or.inr (le_trans hdue hle)

/-- Witness for C5: a sensor with rate 10, due at 0; the hook fails at
time 0, and the retry at time 1/20 is again invoked. -/
theorem C5_failed_hook_retry_witness :
    (Sensor.Update (Sensor.SetUpdateRate sensorCtor 10)
        0 false false).2 = true ∧
    (0 : ℚ) ≤ 1/20 ∧
    (Sensor.Update (Sensor.SetUpdateRate sensorCtor 10)
        0 false false).1 = Sensor.SetUpdateRate sensorCtor 10 ∧
    (Sensor.Update (Sensor.Update (Sensor.SetUpdateRate sensorCtor 10)
        0 false false).1 (1/20) false true).2 = true := by
  have h := C5_failed_hook_retry (Sensor.SetUpdateRate sensorCtor 10)
    0 (1/20) true
    (by norm_num [Sensor.Update, Sensor.SetUpdateRate, sensorCtor])
    (by norm_num)
  exact ⟨by norm_num [Sensor.Update, Sensor.SetUpdateRate, sensorCtor],
    by norm_num, h.1, h.2⟩

/-- Helper: the derived update period is never negative. -/
theorem Sensor.updatePeriod_nonneg (s : Sensor) : 0 ≤ s.updatePeriod := by
  unfold Sensor.updatePeriod
  split_ifs with h
  · exact div_nonneg zero_le_one h.le
  · exact le_refl 0

/-- Helper: `Load` preserves non-negativity of the rate and the
scheduling invariant `lastUpdateTime ≤ nextUpdateTime`. -/
theorem Sensor.load_preserves_inv (s : Sensor) (c : SensorConfig)
    (h : 0 ≤ s.updateRate ∧ s.lastUpdateTime ≤ s.nextUpdateTime) :
    0 ≤ (Sensor.Load s c).1.updateRate ∧
      (Sensor.Load s c).1.lastUpdateTime ≤
        (Sensor.Load s c).1.nextUpdateTime := by
  unfold Sensor.Load
  cases c.name <;> cases c.topic <;> simp_all
  split_ifs with h1 h2 <;> simp_all

/-- Helper: a non-forced `Update` preserves non-negativity of the rate
and the scheduling invariant. -/
theorem Sensor.update_nf_preserves_inv (s : Sensor) (now : ℚ) (ok : Bool)
    (h : 0 ≤ s.updateRate ∧ s.lastUpdateTime ≤ s.nextUpdateTime) :
    0 ≤ (Sensor.Update s now false ok).1.updateRate ∧
      (Sensor.Update s now false ok).1.lastUpdateTime ≤
        (Sensor.Update s now false ok).1.nextUpdateTime := by
  unfold Sensor.Update
  by_cases hn : s.nextUpdateTime ≤ now
  · cases ok
    · simpa [hn] using h
    · simp [hn]
      exact ⟨h.1, Sensor.updatePeriod_nonneg s⟩
  · simpa [hn] using h

/-- Helper: every state reachable without forced updates has a
non-negative rate and satisfies `lastUpdateTime ≤ nextUpdateTime`. -/
theorem reachableNF_inv (s : Sensor) (h : ReachableNF s) :
    0 ≤ s.updateRate ∧ s.lastUpdateTime ≤ s.nextUpdateTime := by
  induction h with
  | ctor => exact ⟨le_refl 0, le_refl 0⟩
  | load s c _ ih => exact Sensor.load_preserves_inv s c ih
  | initOp s mgr i _ ih =>
      unfold Sensor.Init
      split_ifs <;> simpa using ih
  | update s now ok _ ih => exact Sensor.update_nf_preserves_inv s now ok ih
  | setRate s hz _ ih =>
      unfold Sensor.SetUpdateRate
      split_ifs with h0
      · exact ⟨h0, ih.2⟩
      · exact ih
  | setPose s p _ ih => exact ih

/-- Counterexample to claim C6 as stated: the freshly constructed
sensor satisfies `lastUpdateTime ≤ nextUpdateTime`, but a single
forced update `Update(5, true)` with a successful hook sets
`lastUpdateTime := 5` while leaving `nextUpdateTime = 0` (forced
updates never move the schedule), so the invariant is not preserved by
every operation. -/
theorem C6_invariant_counterexample :
    sensorCtor.lastUpdateTime ≤ sensorCtor.nextUpdateTime ∧
    ¬ ((Sensor.Update sensorCtor 5 true true).1.lastUpdateTime ≤
        (Sensor.Update sensorCtor 5 true true).1.nextUpdateTime) := by
  norm_num [Sensor.Update, sensorCtor]

/-- Claim C6, amended: the invariant `nextUpdateTime ≥ lastUpdateTime`
holds in the initial state and is preserved by `Load`, `Init`,
non-forced `Update(now, false)`, `SetUpdateRate` and `SetPose`, hence
holds in every state reachable without forced updates; a forced update
at a time past `nextUpdateTime` can break it. -/
theorem C6_invariant_reachable (s : Sensor) (h : ReachableNF s) :
    s.lastUpdateTime ≤ s.nextUpdateTime :=
  (reachableNF_inv s h).2

/-- Witness for the amended C6 at a concrete reachable state: after a
regular successful update at time 2 with rate 10. -/
theorem C6_invariant_reachable_witness :
    (Sensor.Update (Sensor.SetUpdateRate sensorCtor 10)
        2 false true).1.lastUpdateTime ≤
      (Sensor.Update (Sensor.SetUpdateRate sensorCtor 10)
        2 false true).1.nextUpdateTime :=
  C6_invariant_reachable _
    (ReachableNF.update _ 2 true (ReachableNF.setRate _ 10 ReachableNF.ctor))

/-- Claim C7: a successful `Init(manager, id)` leaves the sensor with
`Id() ≠ NO_SENSOR`, and a second `Init` call on the same instance is
rejected: it reports failure and re-assigns nothing. -/
theorem C7_init_at_most_once (s : Sensor) (mgr i mgr' i' : Nat)
    (h : (Sensor.Init s mgr i).2 = true) :
    (Sensor.Init s mgr i).1.id ≠ NO_SENSOR ∧
    Sensor.Init (Sensor.Init s mgr i).1 mgr' i' =
      ((Sensor.Init s mgr i).1, false) := by
  unfold Sensor.Init at h ⊢
  by_cases hc : s.id = NO_SENSOR ∧ i ≠ NO_SENSOR
  · obtain ⟨h0, hi⟩ := hc
    simp [h0, hi]
  · simp [hc] at h

/-- Witness for C7: initializing the fresh sensor with manager 1 and
id 7 succeeds; the id becomes non-zero and a second `Init` with
manager 2 and id 9 is rejected. -/
theorem C7_init_at_most_once_witness :
    (Sensor.Init sensorCtor 1 7).1.id ≠ NO_SENSOR ∧
    Sensor.Init (Sensor.Init sensorCtor 1 7).1 2 9 =
      ((Sensor.Init sensorCtor 1 7).1, false) :=
  C7_init_at_most_once sensorCtor 1 7 2 9 (by decide)

/-- Claim C8: a negative rate is rejected everywhere: `SetUpdateRate`
leaves the stored rate unchanged (hence still non-negative, with a
non-negative derived period), and `Load` with a configuration carrying
a negative rate fails without mutating the state. -/
theorem C8_negative_rate_rejected (s : Sensor) (hz : ℚ) (c : SensorConfig)
    (hs : 0 ≤ s.updateRate) (hneg : hz < 0)
    (hc : c.updateRate = some hz) :
    (Sensor.SetUpdateRate s hz).updateRate = s.updateRate ∧
    0 ≤ (Sensor.SetUpdateRate s hz).updateRate ∧
    0 ≤ (Sensor.SetUpdateRate s hz).updatePeriod ∧
    (Sensor.Load s c).1 = s ∧ (Sensor.Load s c).2 = false := by
  have hset : Sensor.SetUpdateRate s hz = s := by
    unfold Sensor.SetUpdateRate
    simp [not_le.mpr hneg]
  have hload : Sensor.Load s c = (s, false) := by
    unfold Sensor.Load
    cases c.name <;> cases c.topic
    · rfl
    · rfl
    · rfl
    · simp only [hc, Option.getD_some]
      split_ifs with h1 h2
      · rfl
      · exact absurd h2 (not_le.mpr hneg)
      · rfl
  refine ⟨by rw [hset], ?_, ?_, by rw [hload], by rw [hload]⟩
  · rw [hset]; exact hs
  · exact Sensor.updatePeriod_nonneg _

/-- Witness for C8: `SetUpdateRate(-1)` on the fresh sensor and `Load`
of a configuration with name "a", topic "b" and rate -1 are both
rejected without mutation. -/
theorem C8_negative_rate_rejected_witness :
    (Sensor.SetUpdateRate sensorCtor (-1)).updateRate =
      sensorCtor.updateRate ∧
    0 ≤ (Sensor.SetUpdateRate sensorCtor (-1)).updateRate ∧
    0 ≤ (Sensor.SetUpdateRate sensorCtor (-1)).updatePeriod ∧
    (Sensor.Load sensorCtor ⟨some "a", some "b", some (-1), none⟩).1 =
      sensorCtor ∧
    (Sensor.Load sensorCtor ⟨some "a", some "b", some (-1), none⟩).2 =
      false :=
  C8_negative_rate_rejected sensorCtor (-1)
    ⟨some "a", some "b", some (-1), none⟩
    (by norm_num [sensorCtor]) (by norm_num) rfl

/-- Helper: `Load` never changes the sensor id. -/
theorem Sensor.load_id (s : Sensor) (c : SensorConfig) :
    (Sensor.Load s c).1.id = s.id := by
  unfold Sensor.Load
  cases c.name <;> cases c.topic
  · rfl
  · rfl
  · rfl
  · dsimp only
    split_ifs <;> rfl

/-- Helper: `Update` never changes the sensor id, forced or not,
whatever the hook result. -/
theorem Sensor.update_id (s : Sensor) (now : ℚ) (force ok : Bool) :
    (Sensor.Update s now force ok).1.id = s.id := by
  unfold Sensor.Update
  split_ifs <;> rfl

/-- Helper: `SetUpdateRate` never changes the sensor id. -/
theorem Sensor.setUpdateRate_id (s : Sensor) (hz : ℚ) :
    (Sensor.SetUpdateRate s hz).id = s.id := by
  unfold Sensor.SetUpdateRate
  split_ifs <;> rfl

/-- Helper: a rejected `Init` call changes nothing. -/
theorem Sensor.init_fail_eq (s : Sensor) (mgr i : Nat)
    (h : (Sensor.Init s mgr i).2 = false) :
    (Sensor.Init s mgr i).1 = s := by
  unfold Sensor.Init at h ⊢
  split_ifs at h ⊢
  rfl

/-- Helper: a sensor that has never been successfully initialized
still carries `id = NO_SENSOR`, whatever `Load`, `Update`,
`SetUpdateRate`, `SetPose` or rejected `Init` calls it went through. -/
theorem reachableNoInit_id (s : Sensor) (h : ReachableNoInit s) :
    s.id = NO_SENSOR := by
  induction h with
  | ctor => rfl
  | load s c _ ih => rw [Sensor.load_id]; exact ih
  | initFail s mgr i _ hf ih => rw [Sensor.init_fail_eq s mgr i hf]; exact ih
  | update s now force ok _ ih => rw [Sensor.update_id]; exact ih
  | setRate s hz _ ih => rw [Sensor.setUpdateRate_id]; exact ih
  | setPose s p _ ih => exact ih

/-- Claim C9: the invalid sensor id `NO_SENSOR` is the concrete value
0 (`Sensor.hh` line 34); every sensor that has never been successfully
initialized — whatever other operations it went through — reads
`Id() = 0`, and any id a successful `Init` assigns is non-zero. -/
theorem C9_no_sensor_is_zero (s t : Sensor) (mgr i : Nat)
    (hs : ReachableNoInit s) (h : (Sensor.Init t mgr i).2 = true) :
    NO_SENSOR = 0 ∧
    (Sensor.IdGet s).1 = 0 ∧
    (Sensor.IdGet (Sensor.Init t mgr i).1).1 ≠ 0 := by
  refine ⟨rfl, reachableNoInit_id s hs, ?_⟩
  unfold Sensor.Init at h ⊢
  by_cases hc : t.id = NO_SENSOR ∧ i ≠ NO_SENSOR
  · obtain ⟨h0, hi⟩ := hc
    simp [h0, hi, Sensor.IdGet]
    exact hi
  · simp [hc] at h

/-- Witness for C9: a sensor that was loaded (name "a", topic "b") but
never initialized still reads `Id() = 0`; initializing the fresh
sensor with id 7 yields a non-zero id. -/
theorem C9_no_sensor_is_zero_witness :
    NO_SENSOR = 0 ∧
    (Sensor.IdGet (Sensor.Load sensorCtor
        ⟨some "a", some "b", none, none⟩).1).1 = 0 ∧
    (Sensor.IdGet (Sensor.Init sensorCtor 1 7).1).1 ≠ 0 :=
  C9_no_sensor_is_zero
    (Sensor.Load sensorCtor ⟨some "a", some "b", none, none⟩).1
    sensorCtor 1 7
    (ReachableNoInit.load sensorCtor ⟨some "a", some "b", none, none⟩
      ReachableNoInit.ctor)
    (by decide)

/-- Claim C10: every read-only accessor (`NextUpdateTime`,
`UpdateRate`, `Pose`, `Name`, `Topic`, `Id`, `Manager`) returns the
receiver state unchanged: observation only, no mutation. -/
theorem C10_accessors_observation_only (s : Sensor) :
    (s.NextUpdateTime).2 = s ∧ (s.UpdateRate).2 = s ∧
    (s.PoseGet).2 = s ∧ (s.NameGet).2 = s ∧ (s.TopicGet).2 = s ∧
    (s.IdGet).2 = s ∧ (s.ManagerGet).2 = s :=
  ⟨rfl, rfl, rfl, rfl, rfl, rfl, rfl⟩

/-- Witness for C10 at the concrete fresh sensor. -/
theorem C10_accessors_observation_only_witness :
    (sensorCtor.NextUpdateTime).2 = sensorCtor ∧
    (sensorCtor.UpdateRate).2 = sensorCtor ∧
    (sensorCtor.PoseGet).2 = sensorCtor ∧
    (sensorCtor.NameGet).2 = sensorCtor ∧
    (sensorCtor.TopicGet).2 = sensorCtor ∧
    (sensorCtor.IdGet).2 = sensorCtor ∧
    (sensorCtor.ManagerGet).2 = sensorCtor :=
  C10_accessors_observation_only sensorCtor
